import Mathlib

/-!
Shallow embedding of the tagslam pose-graph state manager
(`src/src/tag_graph.cpp`, namespace `tagslam`).

Pure C++ helpers become Lean functions; the mutable `TagGraph` object
becomes an explicit state record that every operation threads through.
`gtsam::Symbol` is modelled as a (character code, index) pair; the
index arithmetic of the world-corner symbol is computed modulo `2 ^ 32`
because the C++ expression is evaluated in `unsigned int`.  Functions
that can throw (`std::runtime_error` in the symbol encoders) return
`Except String`.  Diagnostic output on `std::cout` is modelled as a list
of log entries tagged with a severity derived from the message text
("TagGraph ERROR" / "TagGraph WARN" / plain informational prints).
`double` values that are only stored and compared are modelled as `ℚ`;
the measurement function `distance`, which takes a real square root, is
modelled over `ℝ` separately below.  External gtsam entities
(`Pose3`, noise models, calibration objects, the Levenberg-Marquardt
solver) are opaque to this repository and are modelled as token types
or, for the solver, as an explicit functional parameter matching the
narrow contract described by the spec.
-/

namespace tagslam

/-- Severity of a `std::cout` message, read off the message prefix used in
`tag_graph.cpp` ("TagGraph ERROR:", "TagGraph WARN:", anything else is
informational). -/
inductive DiagLevel where
  | error
  | warn
  | info
deriving DecidableEq

/-- One line printed to `std::cout`, with its severity. -/
abbrev LogEntry := DiagLevel × String

/-- A log entry counts as a diagnostic when it is an error or a warning;
plain informational prints do not. -/
def isDiagnostic (e : LogEntry) : Bool :=
  match e.1 with
  | DiagLevel.info => false
  | _ => true

/-- `gtsam::Symbol`: a character tag plus an integer index.  Two symbols
denote the same key exactly when both components agree. -/
structure Symbol where
  chr : Nat
  index : Nat
deriving DecidableEq

/-- Opaque stand-in for `gtsam::Pose3` (its algebra lives outside this
repository). -/
structure Pose3 where
  tok : Nat
deriving DecidableEq

/-- Opaque stand-in for the pose noise model attached to a pose estimate. -/
structure PoseNoise where
  tok : Nat
deriving DecidableEq

/-- A `gtsam::Point3` whose coordinates are only stored (tag corner
offsets, measured directions); coordinates are modelled as rationals. -/
structure Point3Q where
  x : ℚ
  y : ℚ
  z : ℚ
deriving DecidableEq

/-- A measured image-plane point (`gtsam::Point2`), coordinates as
rationals. -/
structure Point2Q where
  u : ℚ
  v : ℚ
deriving DecidableEq

/-- Opaque stand-in for the radial-tangential calibration `Cal3DS2U`. -/
structure Cal3DS2U where
  tok : Nat
deriving DecidableEq

/-- Opaque stand-in for the equidistant calibration `Cal3FS2`. -/
structure Cal3FS2 where
  tok : Nat
deriving DecidableEq

/-- Modelled from the spec: the `PoseEstimate` value type is declared in a
header that is not under `src/` ("pose + residual + iteration count +
optional covariance + validity flag").  A default-constructed estimate is
invalid (the source comments `PoseEstimate pe;  // defaults to invalid`);
constructing one from a pose marks it valid. -/
structure PoseEstimate where
  pose : Pose3
  err : ℚ
  iterations : Nat
  noise : PoseNoise
  valid : Bool
deriving DecidableEq

/-- The default-constructed (invalid, not-found) pose estimate. -/
def PoseEstimate.init : PoseEstimate :=
  { pose := { tok := 0 }, err := 0, iterations := 0, noise := { tok := 0 }, valid := false }

/-- `PoseEstimate(pose, err, iter)`: a found estimate, marked valid. -/
def PoseEstimate.make (p : Pose3) (e : ℚ) (it : Nat) : PoseEstimate :=
  { pose := p, err := e, iterations := it, noise := { tok := 0 }, valid := true }

/-- `PoseEstimate::isValid()`. -/
def PoseEstimate.isValid (pe : PoseEstimate) : Bool := pe.valid

/-- A fiducial tag as consumed by `TagGraph`: id, pose estimate relative
to its parent body, whether that pose is externally known, its four
object-frame corner points and the measured image corners of the current
frame (`getObjectCorner` / `getImageCorners` are modelled as functions of
the corner number). -/
structure Tag where
  id : Nat
  poseEstimate : PoseEstimate
  hasKnownPose : Bool
  objectCorners : Nat → Point3Q
  imageCorners : Nat → Point2Q

/-- A camera: index, static flag, pose estimate and at most one of the two
mutually exclusive distortion models. -/
structure Camera where
  name : String
  index : Nat
  isStatic : Bool
  poseEstimate : PoseEstimate
  radtanModel : Option Cal3DS2U
  equidistantModel : Option Cal3FS2

/-- A rigid body: index used in key encoding, static flag, optional
configured pose prior and a current pose estimate. -/
structure RigidBody where
  name : String
  index : Nat
  isStatic : Bool
  hasPosePrior : Bool
  poseEstimate : PoseEstimate

/-- A declared distance measurement between two tag corners. -/
structure DistanceMeasurement where
  tag1 : Nat
  tag2 : Nat
  corner1 : Nat
  corner2 : Nat
  distance : ℚ
  noise : ℚ
deriving DecidableEq

/-- The factor families added by `TagGraph`: `Prior` pins one key,
`reprojection` is the expression factor built in `observedTags` (recording
which calibration model it uses), `distance` the point-distance expression
factor, `projectedLength` the projected-position factor. -/
inductive Factor where
  | prior (key : Symbol) (pose : Pose3) (noise : PoseNoise)
  | reprojection (cal : Sum Cal3DS2U Cal3FS2) (T_w_c T_w_b T_b_o : Symbol)
      (X_o : Point3Q) (measured : Point2Q) (pixNoise : ℚ)
  | distance (T_w_b1 T_w_b2 T_b1_o T_b2_o : Symbol)
      (X_o_1 X_o_2 : Point3Q) (measured : ℚ) (sigma : ℚ)
  | projectedLength (T_w_b T_b_o : Symbol) (X_o dir : Point3Q)
      (measured : ℚ) (sigma : ℚ)
deriving DecidableEq

/-- The mutable state owned by one `TagGraph` object: the value store
`values_`, the factor collection `graph_`, the pixel noise sigma, and the
optimizer outputs (`optimizedValues_`, `optimizerError_`,
`optimizerIterations_`). -/
structure TagGraph where
  values : List (Symbol × Pose3)
  graph : List Factor
  pixelNoise : ℚ
  optimizedValues : List (Symbol × Pose3)
  optimizerError : ℚ
  optimizerIterations : Nat
deriving DecidableEq

/-- `TagGraph::TagGraph()`: empty store, pixel noise sigma 1. -/
def TagGraph.init : TagGraph :=
  { values := [], graph := [], pixelNoise := 1,
    optimizedValues := [], optimizerError := 0, optimizerIterations := 0 }

/-- `TagGraph::setPixelNoise`. -/
def TagGraph.setPixelNoise (s : TagGraph) (numPix : ℚ) : TagGraph :=
  { s with pixelNoise := numPix }

/-- `MAX_TAG_ID = 255`. -/
def MAX_TAG_ID : Nat := 255

/-- `MAX_CAM_ID = 8`. -/
def MAX_CAM_ID : Nat := 8

/-- `MAX_BODY_ID = 'Z' - 'A' - 1 = 24`. -/
def MAX_BODY_ID : Nat := 24

/-- `TagGraph::getMaxNumBodies()`. -/
def TagGraph.getMaxNumBodies : Nat := MAX_BODY_ID

/-- `sym_T_b_o(tagId) = Symbol('t', tagId)` — the tag-to-body key.  The
source performs no bounds check here, so the function is total
(116 is the character code of `t`). -/
def sym_T_b_o (tagId : Nat) : Symbol :=
  { chr := 116, index := tagId }

/-- `sym_X_w_i(tagId, corner, frame)` — the world-corner key
`Symbol('w', frame * MAX_TAG_ID * 4 + tagId * 4 + corner)`; throws when
`tagId > MAX_TAG_ID`.  The index expression is `unsigned int` arithmetic,
hence the reduction modulo `2 ^ 32` (119 is the character code of `w`). -/
def sym_X_w_i (tagId corner frame : Nat) : Except String Symbol :=
  if tagId > MAX_TAG_ID then
    Except.error "tag id exceeds MAX_TAG_ID"
  else
    Except.ok { chr := 119, index := (frame * MAX_TAG_ID * 4 + tagId * 4 + corner) % 2 ^ 32 }

/-- `sym_T_c_t(camId, frame_num) = Symbol('a' + camId, frame_num)` — the
camera-pose key; throws when `camId >= MAX_CAM_ID` (97 is the character
code of `a`). -/
def sym_T_c_t (camId frame_num : Nat) : Except String Symbol :=
  if camId ≥ MAX_CAM_ID then
    Except.error "cam id exceeds MAX_CAM_ID"
  else
    Except.ok { chr := 97 + camId, index := frame_num }

/-- `sym_T_w_b(bodyIdx, frame_num) = Symbol('A' + bodyIdx, frame_num)` —
the body-pose key; throws when `bodyIdx >= MAX_BODY_ID` (65 is the
character code of `A`). -/
def sym_T_w_b (bodyIdx frame_num : Nat) : Except String Symbol :=
  if bodyIdx ≥ MAX_BODY_ID then
    Except.error "body idx exceeds MAX_BODY_ID"
  else
    Except.ok { chr := 65 + bodyIdx, index := frame_num }

/-- `X_w_i_sym_to_index`: decodes a world-corner key back into
`(tagId, corner, frame)`.  The C++ routine reads the symbol index into an
`int` and divides in `unsigned` arithmetic, hence the modulo `2 ^ 32`. -/
def X_w_i_sym_to_index (k : Symbol) : Nat × Nat × Nat :=
  let idx := k.index % 2 ^ 32
  let frame_num := idx / (4 * MAX_TAG_ID)
  ((idx - frame_num * 4 * MAX_TAG_ID) / 4, (idx - frame_num * 4 * MAX_TAG_ID) % 4, frame_num)

/-- Whether an encoder call succeeded (did not throw). -/
def succeeds {α : Type} (e : Except String α) : Bool :=
  match e with
  | Except.ok _ => true
  | Except.error _ => false

/-- Claim C1: the world-corner encoder is claimed injective on tag ids
0..255 with the decoder as left inverse; in fact the frame stride is
`MAX_TAG_ID * 4 = 1020` while tag ids 0..255 with 4 corners need 1024
slots, so `sym_X_w_i(255, 0, 0)` and `sym_X_w_i(0, 0, 1)` encode to the
same key, and decoding the key of `(tagId 255, corner 0, frame 0)` yields
`(tagId 0, corner 0, frame 1)`. -/
theorem sym_X_w_i_not_injective :
    sym_X_w_i 255 0 0 = Except.ok { chr := 119, index := 1020 } ∧
    sym_X_w_i 0 0 1 = Except.ok { chr := 119, index := 1020 } ∧
    X_w_i_sym_to_index { chr := 119, index := 1020 } = (0, 0, 1) := by
  refine ⟨rfl, rfl, by decide⟩

/-- Claim C2 (counterexample): the tag-to-body encoder is claimed to fail
for tag id ≥ 256; in the source `sym_T_b_o` has no bounds check and
returns a key for tag id 256. -/
theorem sym_T_b_o_no_bounds_check :
    sym_T_b_o 256 = { chr := 116, index := 256 } := rfl

/-- Claim C2 (amended): the camera-pose encoder fails exactly for camera
index ≥ 8, the body-pose encoder exactly for body index ≥ 24, the
world-corner encoder exactly for tag id ≥ 256, and the tag-to-body
encoder never fails: it returns `Symbol('t', tagId)` for every tag id. -/
theorem encoder_bounds_spec :
    ∀ tagId corner frame_num camId bodyIdx : Nat,
      sym_T_b_o tagId = { chr := 116, index := tagId } ∧
      (succeeds (sym_X_w_i tagId corner frame_num) = true ↔ tagId ≤ MAX_TAG_ID) ∧
      (succeeds (sym_T_c_t camId frame_num) = true ↔ camId < MAX_CAM_ID) ∧
      (succeeds (sym_T_w_b bodyIdx frame_num) = true ↔ bodyIdx < MAX_BODY_ID) := by
  intro tagId corner frame_num camId bodyIdx
  refine ⟨rfl, ?_, ?_, ?_⟩
  · simp only [sym_X_w_i, MAX_TAG_ID]
    by_cases h : tagId > 255
    · rw [if_pos h]; simp [succeeds]; omega
    · rw [if_neg h]; simp [succeeds]; omega
  · simp only [sym_T_c_t, MAX_CAM_ID]
    by_cases h : camId ≥ 8
    · rw [if_pos h]; simp [succeeds]; omega
    · rw [if_neg h]; simp [succeeds]; omega
  · simp only [sym_T_w_b, MAX_BODY_ID]
    by_cases h : bodyIdx ≥ 24
    · rw [if_pos h]; simp [succeeds]; omega
    · rw [if_neg h]; simp [succeeds]; omega

/-- Lookup in the value store (`values_.find` / `values_.exists`). -/
def lookupValue (vals : List (Symbol × Pose3)) (k : Symbol) : Option Pose3 :=
  match vals with
  | [] => none
  | (k2, v) :: rest => if k2 = k then some v else lookupValue rest k

/-- The duplicate-tag message printed by `addTags`. -/
def dupTagMsg (id : Nat) : LogEntry :=
  (DiagLevel.error, "TagGraph ERROR: duplicate tag id inserted: " ++ toString id)

/-- The empty-tag-list warning printed by `observedTags`. -/
def noTagsMsg (camName : String) (frame_num : Nat) : LogEntry :=
  (DiagLevel.warn, "TagGraph WARN: no tags for " ++ camName ++ " in frame " ++ toString frame_num)

/-- The invalid-camera-pose warning printed by `observedTags`. -/
def noCamPoseMsg (camName : String) (frame_num : Nat) : LogEntry :=
  (DiagLevel.warn,
    "TagGraph WARN: no pose estimate for cam " ++ camName ++ " in frame " ++ toString frame_num)

/-- The invalid-tag-pose warning printed by `observedTags`. -/
def invalidTagMsg (id : Nat) : LogEntry :=
  (DiagLevel.warn, "TagGraph WARN: tag " ++ toString id ++ " has invalid pose!")

/-- The informational print emitted when a static-body prior is added. -/
def addPriorMsg (bodyName : String) : LogEntry :=
  (DiagLevel.info, "TagGraph: adding prior for body: " ++ bodyName)

/-- The error printed when `addDistanceMeasurement` sees a non-static body. -/
def nonStaticMsg : LogEntry :=
  (DiagLevel.error, "TagGraph ERROR: non-rigid body has tag measurement!")

/-- The informational print emitted when a distance measurement is added. -/
def addDistMsg (t1 t2 : Nat) : LogEntry :=
  (DiagLevel.info, "TagGraph adding rb measurement: " ++ toString t1 ++ " to " ++ toString t2)

/-- `TagGraph::addTags(rb, tags)`: for each tag in order, if its
tag-to-body key is already present the whole call stops with an error
print (the C++ loop executes `return`, not `continue`); otherwise the
tag's current pose is inserted and, when the pose is externally known, a
`Prior` factor with the tag's noise is pushed. -/
def addTags (s : TagGraph) (rb : RigidBody) (tags : List Tag) : TagGraph × List LogEntry :=
  match tags with
  | [] => (s, [])
  | tag :: rest =>
    let T_b_o_sym := sym_T_b_o tag.id
    if (lookupValue s.values T_b_o_sym).isSome then
      (s, [dupTagMsg tag.id])
    else
      let s2 := { s with
        values := s.values ++ [(T_b_o_sym, tag.poseEstimate.pose)],
        graph := s.graph ++
          (if tag.hasKnownPose then
            [Factor.prior T_b_o_sym tag.poseEstimate.pose tag.poseEstimate.noise]
          else []) }
      addTags s2 rb rest

/-- The longest initial segment of a tag list that `addTags` can admit
against a given value store: it stops right before the first tag whose
key is already present (taking the insertions of the earlier tags of the
same call into account). -/
def freshTags (vals : List (Symbol × Pose3)) : List Tag → List Tag
  | [] => []
  | tag :: rest =>
    if (lookupValue vals (sym_T_b_o tag.id)).isSome then []
    else tag :: freshTags (vals ++ [(sym_T_b_o tag.id, tag.poseEstimate.pose)]) rest

/-- Claim C3 (amended): `addTags` admits exactly the longest fresh initial
segment of its tag list: each admitted tag has its current pose appended
to the value store and contributes one `Prior` factor with its noise
exactly when its pose is externally known; the first tag whose key
already exists aborts the call with a diagnostic, leaving it and every
later tag unprocessed (the earlier insertions of the same call are
kept); the call is silent exactly when no duplicate was hit. -/
theorem addTags_stops_at_duplicate :
    ∀ (tags : List Tag) (s : TagGraph) (rb : RigidBody),
      (addTags s rb tags).1 = { s with
        values := s.values ++
          (freshTags s.values tags).map (fun t => (sym_T_b_o t.id, t.poseEstimate.pose)),
        graph := s.graph ++
          ((freshTags s.values tags).filter (fun t => t.hasKnownPose)).map
            (fun t => Factor.prior (sym_T_b_o t.id) t.poseEstimate.pose t.poseEstimate.noise) } ∧
      ((addTags s rb tags).2 = [] ↔ freshTags s.values tags = tags) := by
  intro tags
  induction tags with
  | nil => intro s rb; simp [addTags, freshTags]
  | cons tag rest ih =>
    intro s rb
    by_cases hdup : (lookupValue s.values (sym_T_b_o tag.id)).isSome
    · constructor
      · simp [addTags, freshTags, hdup]
      · simp only [addTags, freshTags, hdup, if_pos]
        constructor
        · intro hcontra; exact absurd hcontra (by simp)
        · intro hcontra; exact absurd hcontra (by simp)
    · have hstep : addTags s rb (tag :: rest) =
          addTags { s with
            values := s.values ++ [(sym_T_b_o tag.id, tag.poseEstimate.pose)],
            graph := s.graph ++
              (if tag.hasKnownPose then
                [Factor.prior (sym_T_b_o tag.id) tag.poseEstimate.pose tag.poseEstimate.noise]
              else []) } rb rest := by
        simp [addTags, hdup]
      have hfresh : freshTags s.values (tag :: rest) =
          tag :: freshTags (s.values ++ [(sym_T_b_o tag.id, tag.poseEstimate.pose)]) rest := by
        simp [freshTags, hdup]
      rcases ih { s with
          values := s.values ++ [(sym_T_b_o tag.id, tag.poseEstimate.pose)],
          graph := s.graph ++
            (if tag.hasKnownPose then
              [Factor.prior (sym_T_b_o tag.id) tag.poseEstimate.pose tag.poseEstimate.noise]
            else []) } rb with ⟨ihv, ihl⟩
      constructor
      · rw [hstep, ihv, hfresh]
        cases htk : tag.hasKnownPose <;> simp [htk, List.append_assoc]
      · rw [hstep, ihl, hfresh]
        simp

/-- Concrete tag with id 7, a valid, externally known pose. -/
def tagA : Tag :=
  { id := 7, poseEstimate := PoseEstimate.make { tok := 1 } 0 0, hasKnownPose := true,
    objectCorners := fun _ => { x := 0, y := 0, z := 0 },
    imageCorners := fun _ => { u := 0, v := 0 } }

/-- Concrete tag with id 9, a valid pose that is not externally known. -/
def tagB : Tag :=
  { id := 9, poseEstimate := PoseEstimate.make { tok := 2 } 0 0, hasKnownPose := false,
    objectCorners := fun _ => { x := 1, y := 0, z := 0 },
    imageCorners := fun _ => { u := 1, v := 1 } }

/-- Concrete tag with id 9 whose pose estimate is invalid. -/
def tagInvalid : Tag :=
  { id := 9, poseEstimate := PoseEstimate.init, hasKnownPose := false,
    objectCorners := fun _ => { x := 0, y := 0, z := 0 },
    imageCorners := fun _ => { u := 0, v := 0 } }

/-- Concrete static rigid body with index 0 and a configured pose prior. -/
def rbA : RigidBody :=
  { name := "body0", index := 0, isStatic := true, hasPosePrior := true,
    poseEstimate := PoseEstimate.make { tok := 3 } 0 0 }

/-- Concrete static rigid body with index 1 and no pose prior. -/
def rbB : RigidBody :=
  { name := "body1", index := 1, isStatic := true, hasPosePrior := false,
    poseEstimate := PoseEstimate.make { tok := 4 } 0 0 }

/-- Concrete rigid body whose pose estimate is invalid. -/
def rbInvalidPose : RigidBody :=
  { name := "body2", index := 2, isStatic := true, hasPosePrior := false,
    poseEstimate := PoseEstimate.init }

/-- Concrete static camera with index 0 and a radial-tangential model. -/
def camA : Camera :=
  { name := "cam0", index := 0, isStatic := true,
    poseEstimate := PoseEstimate.make { tok := 5 } 0 0,
    radtanModel := some { tok := 0 }, equidistantModel := none }

/-- Concrete static camera with index 0 and no distortion model at all. -/
def camNoModel : Camera :=
  { name := "cam1", index := 0, isStatic := true,
    poseEstimate := PoseEstimate.make { tok := 6 } 0 0,
    radtanModel := none, equidistantModel := none }

/-- The graph state after inserting `tagA` into a fresh graph. -/
def gS1 : TagGraph := (addTags TagGraph.init rbA [tagA]).1

/-- Claim C3 (counterexample): calling `addTags` with the already-present
`tagA` followed by the fresh `tagB` leaves the state completely
unchanged: `tagB`'s key was absent before the call and is still absent
after it, although the claim says a tag whose key does not exist has its
pose inserted. -/
theorem addTags_duplicate_aborts_call :
    lookupValue gS1.values (sym_T_b_o tagB.id) = none ∧
    (addTags gS1 rbA [tagA, tagB]).1 = gS1 ∧
    (addTags gS1 rbA [tagA, tagB]).2 = [dupTagMsg tagA.id] ∧
    lookupValue ((addTags gS1 rbA [tagA, tagB]).1).values (sym_T_b_o tagB.id) = none :=
  ⟨rfl, rfl, rfl, rfl⟩

/-- The reprojection factors contributed by one observed tag: four (one
per corner), built with the camera's radial-tangential model when
present, else with its equidistant model when present, else none. -/
def reprojFactors (cam : Camera) (T_w_c_sym T_w_b_sym T_b_o_sym : Symbol)
    (tag : Tag) (pixNoise : ℚ) : List Factor :=
  match cam.radtanModel with
  | some m =>
    (List.range 4).map (fun i =>
      Factor.reprojection (Sum.inl m) T_w_c_sym T_w_b_sym T_b_o_sym
        (tag.objectCorners i) (tag.imageCorners i) pixNoise)
  | none =>
    match cam.equidistantModel with
    | some m =>
      (List.range 4).map (fun i =>
        Factor.reprojection (Sum.inr m) T_w_c_sym T_w_b_sym T_b_o_sym
          (tag.objectCorners i) (tag.imageCorners i) pixNoise)
    | none => []

/-- The per-tag loop of `observedTags`: a tag with an invalid pose is
skipped with a warning; otherwise its four corner reprojection factors
are appended. -/
def observedTagsLoop (s : TagGraph) (cam : Camera) (T_w_c_sym T_w_b_sym : Symbol) :
    List Tag → TagGraph × List LogEntry
  | [] => (s, [])
  | tag :: rest =>
    if tag.poseEstimate.isValid = false then
      let r := observedTagsLoop s cam T_w_c_sym T_w_b_sym rest
      (r.1, invalidTagMsg tag.id :: r.2)
    else
      let s2 := { s with
        graph := s.graph ++ reprojFactors cam T_w_c_sym T_w_b_sym (sym_T_b_o tag.id) tag s.pixelNoise }
      observedTagsLoop s2 cam T_w_c_sym T_w_b_sym rest

/-- `TagGraph::observedTags(cam, rb, tags, frame_num)`: returns early (a
no-op on the state) when the tag list is empty, the camera pose estimate
is invalid, or the body pose estimate is invalid — the first two with a
warning, the third silently.  Otherwise the camera-pose and body-pose
keys are inserted if not yet present (attaching a `Prior` when a static
body has a configured prior), and each valid tag contributes its corner
reprojection factors. -/
def observedTags (s : TagGraph) (cam : Camera) (rb : RigidBody) (tags : List Tag)
    (frame_num : Nat) : Except String (TagGraph × List LogEntry) :=
  if tags.isEmpty then
    Except.ok (s, [noTagsMsg cam.name frame_num])
  else if cam.poseEstimate.isValid = false then
    Except.ok (s, [noCamPoseMsg cam.name frame_num])
  else if rb.poseEstimate.isValid = false then
    Except.ok (s, [])
  else
    match sym_T_c_t cam.index (if cam.isStatic then 0 else frame_num) with
    | Except.error e => Except.error e
    | Except.ok T_w_c_sym =>
      let s1 :=
        if (lookupValue s.values T_w_c_sym).isSome then s
        else { s with values := s.values ++ [(T_w_c_sym, cam.poseEstimate.pose)] }
      match sym_T_w_b rb.index (if rb.isStatic then 0 else frame_num) with
      | Except.error e => Except.error e
      | Except.ok T_w_b_sym =>
        let step2 : TagGraph × List LogEntry :=
          if (lookupValue s1.values T_w_b_sym).isSome then (s1, [])
          else
            let s1i := { s1 with values := s1.values ++ [(T_w_b_sym, rb.poseEstimate.pose)] }
            if rb.isStatic && rb.hasPosePrior then
              ({ s1i with
                  graph := s1i.graph ++
                    [Factor.prior T_w_b_sym rb.poseEstimate.pose rb.poseEstimate.noise] },
               [addPriorMsg rb.name])
            else (s1i, [])
        let r := observedTagsLoop step2.1 cam T_w_c_sym T_w_b_sym tags
        Except.ok (r.1, step2.2 ++ r.2)

/-- Claim C4 (amended): when the tag list is empty, or the camera pose
estimate is invalid, or the body pose estimate is invalid, `observedTags`
leaves the graph state completely unchanged and raises no error; the
first two cases emit a warning diagnostic while the invalid-body-pose
case is silent (no diagnostic at all). -/
theorem observedTags_precondition_noop
    (s : TagGraph) (cam : Camera) (rb : RigidBody) (tags : List Tag) (frame_num : Nat) :
    (tags = [] →
      observedTags s cam rb tags frame_num = Except.ok (s, [noTagsMsg cam.name frame_num]) ∧
      isDiagnostic (noTagsMsg cam.name frame_num) = true) ∧
    (tags ≠ [] → cam.poseEstimate.isValid = false →
      observedTags s cam rb tags frame_num = Except.ok (s, [noCamPoseMsg cam.name frame_num]) ∧
      isDiagnostic (noCamPoseMsg cam.name frame_num) = true) ∧
    (tags ≠ [] → cam.poseEstimate.isValid = true → rb.poseEstimate.isValid = false →
      observedTags s cam rb tags frame_num = Except.ok (s, [])) := by
  refine ⟨?_, ?_, ?_⟩
  · intro he
    subst he
    exact ⟨rfl, rfl⟩
  · intro hne hcv
    have hemp : tags.isEmpty = false := by
      cases tags with
      | nil => exact absurd rfl hne
      | cons a l => rfl
    constructor
    · simp [observedTags, hemp, hcv]
    · rfl
  · intro hne hcv hbv
    have hemp : tags.isEmpty = false := by
      cases tags with
      | nil => exact absurd rfl hne
      | cons a l => rfl
    simp [observedTags, hemp, hcv, hbv]

/-- Claim C4 (witness): the three branches of
`observedTags_precondition_noop` instantiated at concrete inputs. -/
theorem observedTags_precondition_noop_witness :
    (observedTags TagGraph.init camA rbA [] 5 =
      Except.ok (TagGraph.init, [noTagsMsg camA.name 5]) ∧
      isDiagnostic (noTagsMsg camA.name 5) = true) ∧
    observedTags TagGraph.init camA rbInvalidPose [tagA] 5 = Except.ok (TagGraph.init, []) :=
  ⟨(observedTags_precondition_noop TagGraph.init camA rbA [] 5).1 rfl,
   (observedTags_precondition_noop TagGraph.init camA rbInvalidPose [tagA] 5).2.2
     (by simp) rfl rfl⟩

/-- Claim C4 (counterexample): with a valid camera but an invalid body
pose estimate and a non-empty tag list, `observedTags` is a no-op that
emits no diagnostic at all, although the claim says a diagnostic is
emitted in every precondition-violation case. -/
theorem observedTags_invalid_body_silent :
    observedTags TagGraph.init camA rbInvalidPose [tagA] 0 =
      Except.ok (TagGraph.init, []) ∧
    camA.poseEstimate.isValid = true ∧
    rbInvalidPose.poseEstimate.isValid = false :=
  ⟨rfl, rfl, rfl⟩

/-- When the camera has neither distortion model, the per-tag loop of
`observedTags` adds no factor at all for tags with valid poses and prints
nothing. -/
theorem observedTagsLoop_no_model (cam : Camera)
    (hm1 : cam.radtanModel = none) (hm2 : cam.equidistantModel = none) :
    ∀ (tags : List Tag) (s : TagGraph) (a b : Symbol),
      (∀ t ∈ tags, t.poseEstimate.isValid = true) →
      observedTagsLoop s cam a b tags = (s, []) := by
  intro tags
  induction tags with
  | nil => intro s a b h; rfl
  | cons tag rest ih =>
    intro s a b h
    have htag : tag.poseEstimate.isValid = true := h tag (by simp)
    have hrest : ∀ t ∈ rest, t.poseEstimate.isValid = true := fun t ht => h t (by simp [ht])
    have hempty : reprojFactors cam a b (sym_T_b_o tag.id) tag s.pixelNoise = [] := by
      simp [reprojFactors, hm1, hm2]
    simp [observedTagsLoop, htag, hempty, ih _ a b hrest]

/-- The state and log that claim C9 predicts for an `observedTags` call
whose camera has no distortion model: camera-pose and body-pose values
inserted when absent, a static-body prior (with its informational print)
when applicable, and nothing else — in particular no reprojection factor
and no diagnostic. -/
def ObservedTagsNoModelSpec (s : TagGraph) (cam : Camera) (rb : RigidBody)
    (tags : List Tag) (frame_num : Nat) : Prop :=
  let cSym : Symbol := { chr := 97 + cam.index, index := if cam.isStatic then 0 else frame_num }
  let bSym : Symbol := { chr := 65 + rb.index, index := if rb.isStatic then 0 else frame_num }
  let v1 :=
    if (lookupValue s.values cSym).isSome then s.values
    else s.values ++ [(cSym, cam.poseEstimate.pose)]
  let v2 :=
    if (lookupValue v1 bSym).isSome then v1
    else v1 ++ [(bSym, rb.poseEstimate.pose)]
  let g2 :=
    if (lookupValue v1 bSym).isSome then s.graph
    else if rb.isStatic && rb.hasPosePrior then
      s.graph ++ [Factor.prior bSym rb.poseEstimate.pose rb.poseEstimate.noise]
    else s.graph
  let log2 : List LogEntry :=
    if (lookupValue v1 bSym).isSome then []
    else if rb.isStatic && rb.hasPosePrior then [addPriorMsg rb.name]
    else []
  observedTags s cam rb tags frame_num =
    Except.ok ({ s with values := v2, graph := g2 }, log2) ∧
  log2.filter isDiagnostic = []

/-- Claim C9 (amended): for an `observedTags` call whose preconditions
hold (non-empty tags, valid camera and body pose estimates, in-bounds
camera and body indices) and in which every listed tag has a valid pose,
a camera with neither distortion model still gets the camera-pose and
body-pose values (and any static-body prior) inserted, yet no
reprojection factor is added for any tag corner, no error is raised and
no diagnostic is produced (only the informational static-prior print can
occur). -/
theorem observedTags_no_model_spec
    (s : TagGraph) (cam : Camera) (rb : RigidBody) (tags : List Tag) (frame_num : Nat)
    (hci : cam.index < MAX_CAM_ID) (hbi : rb.index < MAX_BODY_ID)
    (hne : tags ≠ []) (hcv : cam.poseEstimate.isValid = true)
    (hbv : rb.poseEstimate.isValid = true)
    (htv : ∀ t ∈ tags, t.poseEstimate.isValid = true)
    (hm1 : cam.radtanModel = none) (hm2 : cam.equidistantModel = none) :
    ObservedTagsNoModelSpec s cam rb tags frame_num := by
  have hemp : tags.isEmpty = false := by
    cases tags with
    | nil => exact absurd rfl hne
    | cons a l => rfl
  have hcc : ¬ (cam.index ≥ MAX_CAM_ID) := Nat.not_le.mpr hci
  have hbb : ¬ (rb.index ≥ MAX_BODY_ID) := Nat.not_le.mpr hbi
  have hc : sym_T_c_t cam.index (if cam.isStatic then 0 else frame_num) =
      Except.ok { chr := 97 + cam.index, index := if cam.isStatic then 0 else frame_num } := by
    unfold sym_T_c_t; rw [if_neg hcc]
  have hb : sym_T_w_b rb.index (if rb.isStatic then 0 else frame_num) =
      Except.ok { chr := 65 + rb.index, index := if rb.isStatic then 0 else frame_num } := by
    unfold sym_T_w_b; rw [if_neg hbb]
  have hloop : ∀ s2 : TagGraph,
      observedTagsLoop s2 cam
        { chr := 97 + cam.index, index := if cam.isStatic then 0 else frame_num }
        { chr := 65 + rb.index, index := if rb.isStatic then 0 else frame_num } tags = (s2, []) :=
    fun s2 => observedTagsLoop_no_model cam hm1 hm2 tags s2 _ _ htv
  unfold ObservedTagsNoModelSpec
  refine ⟨?_, ?_⟩
  · show observedTags s cam rb tags frame_num = _
    unfold observedTags
    rw [hemp, if_neg (by decide : ¬ (false = true))]
    rw [hcv, if_neg (by decide : ¬ (true = false))]
    rw [hbv, if_neg (by decide : ¬ (true = false))]
    rw [hc]
    dsimp only
    rw [hb]
    dsimp only
    simp only [hloop, List.append_nil]
    split_ifs <;> simp_all
  · dsimp only
    split_ifs <;> rfl

/-- Claim C9 (witness): `observedTags_no_model_spec` instantiated with a
fresh graph, the model-less camera `camNoModel`, the static body `rbA`
(which has a configured prior) and the single valid tag `tagA`. -/
theorem observedTags_no_model_spec_witness :
    ObservedTagsNoModelSpec TagGraph.init camNoModel rbA [tagA] 0 :=
  observedTags_no_model_spec TagGraph.init camNoModel rbA [tagA] 0
    (by decide) (by decide) (by simp) rfl rfl
    (fun t ht => by rw [List.mem_singleton] at ht; subst ht; rfl) rfl rfl

/-- Claim C9 (counterexample): with valid preconditions and a camera that
has no distortion model, a tag whose own pose estimate is invalid makes
`observedTags` print a warning diagnostic, although the claim says no
diagnostic is produced; the camera- and body-pose values are still
inserted and no reprojection factor is added. -/
theorem observedTags_invalid_tag_diagnostic :
    observedTags TagGraph.init camNoModel rbB [tagInvalid] 0 =
      Except.ok
        ({ TagGraph.init with
            values := [({ chr := 97, index := 0 }, camNoModel.poseEstimate.pose),
                       ({ chr := 66, index := 0 }, rbB.poseEstimate.pose)] },
         [invalidTagMsg tagInvalid.id]) ∧
    isDiagnostic (invalidTagMsg tagInvalid.id) = true ∧
    camNoModel.poseEstimate.isValid = true ∧
    rbB.poseEstimate.isValid = true ∧
    camNoModel.radtanModel = none ∧
    camNoModel.equidistantModel = none :=
  ⟨rfl, rfl, rfl, rfl, rfl, rfl⟩

/-- `TagGraph::addDistanceMeasurement(rb1, rb2, tag1, tag2, dm)`: refuses
non-static bodies with an error print, returns `false` while any of the
four involved keys is missing, and otherwise appends one `Distance`
factor between the two composed corner positions and returns `true`. -/
def addDistanceMeasurement (s : TagGraph) (rb1 rb2 : RigidBody) (tag1 tag2 : Tag)
    (dm : DistanceMeasurement) : Except String (Bool × TagGraph × List LogEntry) :=
  if !rb1.isStatic || !rb2.isStatic then
    Except.ok (false, s, [nonStaticMsg])
  else
    match sym_T_w_b rb1.index 0 with
    | Except.error e => Except.error e
    | Except.ok T_w_b1_sym =>
      match sym_T_w_b rb2.index 0 with
      | Except.error e => Except.error e
      | Except.ok T_w_b2_sym =>
        let T_b1_o_sym := sym_T_b_o tag1.id
        let T_b2_o_sym := sym_T_b_o tag2.id
        if !(lookupValue s.values T_w_b1_sym).isSome ||
           !(lookupValue s.values T_w_b2_sym).isSome ||
           !(lookupValue s.values T_b1_o_sym).isSome ||
           !(lookupValue s.values T_b2_o_sym).isSome then
          Except.ok (false, s, [])
        else
          Except.ok (true,
            { s with graph := s.graph ++
                [Factor.distance T_w_b1_sym T_w_b2_sym T_b1_o_sym T_b2_o_sym
                  (tag1.objectCorners dm.corner1) (tag2.objectCorners dm.corner2)
                  dm.distance dm.noise] },
            [addDistMsg dm.tag1 dm.tag2])

/-- What claim C5 predicts of `addDistanceMeasurement`: `false` and an
unchanged graph when a body is non-static or a key is missing, otherwise
`true` with exactly one new `Distance` factor, and two identical factors
after a repeated call. -/
def AddDistanceMeasurementSpec (s : TagGraph) (rb1 rb2 : RigidBody) (tag1 tag2 : Tag)
    (dm : DistanceMeasurement) : Prop :=
  let b1 : Symbol := { chr := 65 + rb1.index, index := 0 }
  let b2 : Symbol := { chr := 65 + rb2.index, index := 0 }
  let o1 := sym_T_b_o tag1.id
  let o2 := sym_T_b_o tag2.id
  let ready := (lookupValue s.values b1).isSome && (lookupValue s.values b2).isSome &&
    (lookupValue s.values o1).isSome && (lookupValue s.values o2).isSome
  let f := Factor.distance b1 b2 o1 o2
    (tag1.objectCorners dm.corner1) (tag2.objectCorners dm.corner2) dm.distance dm.noise
  (rb1.isStatic = false ∨ rb2.isStatic = false →
    addDistanceMeasurement s rb1 rb2 tag1 tag2 dm = Except.ok (false, s, [nonStaticMsg])) ∧
  (rb1.isStatic = true → rb2.isStatic = true → ready = false →
    addDistanceMeasurement s rb1 rb2 tag1 tag2 dm = Except.ok (false, s, [])) ∧
  (rb1.isStatic = true → rb2.isStatic = true → ready = true →
    addDistanceMeasurement s rb1 rb2 tag1 tag2 dm =
      Except.ok (true, { s with graph := s.graph ++ [f] }, [addDistMsg dm.tag1 dm.tag2]) ∧
    addDistanceMeasurement { s with graph := s.graph ++ [f] } rb1 rb2 tag1 tag2 dm =
      Except.ok (true, { s with graph := s.graph ++ [f, f] }, [addDistMsg dm.tag1 dm.tag2]))

/-- Claim C5: for in-bounds body indices, `addDistanceMeasurement`
returns `false` and leaves the graph unchanged whenever a body is
non-static or one of the four involved keys (two body-pose keys at
time-bucket 0, two tag-to-body keys) is missing; otherwise it returns
`true` and appends exactly one `Distance` factor with the measured
distance and noise, and a second call with the same arguments appends a
second, identical factor (no deduplication). -/
theorem addDistanceMeasurement_spec
    (s : TagGraph) (rb1 rb2 : RigidBody) (tag1 tag2 : Tag) (dm : DistanceMeasurement)
    (h1 : rb1.index < MAX_BODY_ID) (h2 : rb2.index < MAX_BODY_ID) :
    AddDistanceMeasurementSpec s rb1 rb2 tag1 tag2 dm := by
  have hb1 : sym_T_w_b rb1.index 0 = Except.ok { chr := 65 + rb1.index, index := 0 } := by
    unfold sym_T_w_b; rw [if_neg (Nat.not_le.mpr h1)]
  have hb2 : sym_T_w_b rb2.index 0 = Except.ok { chr := 65 + rb2.index, index := 0 } := by
    unfold sym_T_w_b; rw [if_neg (Nat.not_le.mpr h2)]
  unfold AddDistanceMeasurementSpec
  refine ⟨?_, ?_, ?_⟩
  · intro h
    rcases h with h | h <;> simp [addDistanceMeasurement, h]
  · intro hs1 hs2 hready
    revert hready
    cases hq1 : (lookupValue s.values { chr := 65 + rb1.index, index := 0 }).isSome <;>
      cases hq2 : (lookupValue s.values { chr := 65 + rb2.index, index := 0 }).isSome <;>
        cases hq3 : (lookupValue s.values (sym_T_b_o tag1.id)).isSome <;>
          cases hq4 : (lookupValue s.values (sym_T_b_o tag2.id)).isSome <;>
            intro hready <;>
              simp_all [addDistanceMeasurement, hb1, hb2]
  · intro hs1 hs2 hready
    revert hready
    cases hq1 : (lookupValue s.values { chr := 65 + rb1.index, index := 0 }).isSome <;>
      cases hq2 : (lookupValue s.values { chr := 65 + rb2.index, index := 0 }).isSome <;>
        cases hq3 : (lookupValue s.values (sym_T_b_o tag1.id)).isSome <;>
          cases hq4 : (lookupValue s.values (sym_T_b_o tag2.id)).isSome <;>
            intro hready <;>
              simp_all [addDistanceMeasurement, hb1, hb2]

/-- The graph state holding the four keys that
`addDistanceMeasurement rbA rbB tagA tagB` needs. -/
def gWarm : TagGraph :=
  { TagGraph.init with
      values := [({ chr := 65, index := 0 }, { tok := 3 }),
                 ({ chr := 66, index := 0 }, { tok := 4 }),
                 ({ chr := 116, index := 7 }, { tok := 1 }),
                 ({ chr := 116, index := 9 }, { tok := 2 })] }

/-- A concrete distance measurement between corners of tags 7 and 9. -/
def dmAB : DistanceMeasurement :=
  { tag1 := 7, tag2 := 9, corner1 := 0, corner2 := 1, distance := 2, noise := 1 / 10 }

/-- Claim C5 (witness): `addDistanceMeasurement_spec` instantiated on the
warm graph `gWarm` with static bodies `rbA`, `rbB` and tags `tagA`,
`tagB`. -/
theorem addDistanceMeasurement_spec_witness :
    AddDistanceMeasurementSpec gWarm rbA rbB tagA tagB dmAB :=
  addDistanceMeasurement_spec gWarm rbA rbB tagA tagB dmAB (by decide) (by decide)

/-- `TagGraph::getCameraPose(cam, frame_num)`: looks up the camera-pose
key at the camera's time bucket; found keys yield a valid estimate, a
missing key yields the default-constructed (invalid) estimate. -/
def getCameraPose (s : TagGraph) (cam : Camera) (frame_num : Nat) : Except String PoseEstimate :=
  match sym_T_c_t cam.index (if cam.isStatic then 0 else frame_num) with
  | Except.error e => Except.error e
  | Except.ok T_w_c_sym =>
    match lookupValue s.values T_w_c_sym with
    | some pose => Except.ok (PoseEstimate.make pose 0 0)
    | none => Except.ok PoseEstimate.init

/-- Claim C8: for a camera with in-bounds index whose pose key was never
inserted at the queried time bucket, `getCameraPose` raises no error and
returns the default pose estimate, which is marked invalid (not found) —
never a default pose treated as valid. -/
theorem getCameraPose_notFound (s : TagGraph) (cam : Camera) (frame_num : Nat)
    (h : cam.index < MAX_CAM_ID)
    (habs : lookupValue s.values
      { chr := 97 + cam.index, index := if cam.isStatic then 0 else frame_num } = none) :
    getCameraPose s cam frame_num = Except.ok PoseEstimate.init ∧
    PoseEstimate.init.isValid = false := by
  have hc : sym_T_c_t cam.index (if cam.isStatic then 0 else frame_num) =
      Except.ok { chr := 97 + cam.index, index := if cam.isStatic then 0 else frame_num } := by
    unfold sym_T_c_t; rw [if_neg (Nat.not_le.mpr h)]
  constructor
  · unfold getCameraPose
    rw [hc]
    dsimp only
    rw [habs]
  · rfl

/-- Claim C8 (witness): a never-observed camera on the fresh graph. -/
theorem getCameraPose_notFound_witness :
    getCameraPose TagGraph.init camA 3 = Except.ok PoseEstimate.init ∧
    PoseEstimate.init.isValid = false :=
  getCameraPose_notFound TagGraph.init camA 3 (by decide) rfl

/-- `TagGraph::getTagRelPose(rb, tagId)`: returns the tag-to-body pose
for the tag id if its key exists; the body argument is accepted but never
used. -/
def getTagRelPose (s : TagGraph) (rb : RigidBody) (tagId : Nat) : Option Pose3 :=
  lookupValue s.values (sym_T_b_o tagId)

/-- Claim C10: `getTagRelPose` is independent of its body argument — any
two bodies yield the same found-indicator and the same pose, and the
found-indicator depends only on whether the tag-to-body key exists, so a
tag is found even when queried through a body it is not attached to. -/
theorem getTagRelPose_body_independent :
    ∀ (s : TagGraph) (tagId : Nat) (rb1 rb2 : RigidBody),
      getTagRelPose s rb1 tagId = getTagRelPose s rb2 tagId ∧
      (getTagRelPose s rb1 tagId).isSome = (lookupValue s.values (sym_T_b_o tagId)).isSome :=
  fun s tagId rb1 rb2 => ⟨rfl, rfl⟩

/-- The narrow solver contract of the spec: the external nonlinear solver
consumes the factor graph and the current value assignment and produces
optimized values, a scalar error and an iteration count. -/
def Solver : Type :=
  List Factor → List (Symbol × Pose3) → List (Symbol × Pose3) × ℚ × Nat

/-- Whether a factor is a reprojection (projection) factor. -/
def Factor.isProjection : Factor → Bool
  | Factor.reprojection .. => true
  | _ => false

/-- Modelled from the spec: the member `numProjectionFactors_` read by
`tryOptimization` is declared and maintained outside `src/` (the class
header is not part of the sources); per the spec the recorded error is
"normalized by the count of Reprojection factors", so the member is
modelled as the number of reprojection factors in the factor
collection. -/
def numProjectionFactors (s : TagGraph) : Nat :=
  (s.graph.filter Factor.isProjection).length

/-- `TagGraph::tryOptimization(result, graph, values, verbosity, maxIter)`
with the solver abstracted: stores the solver's values in
`optimizedValues_`, the error times `1/numProjectionFactors_` (or times 1
when there are no projection factors) in `optimizerError_`, and the
iteration count in `optimizerIterations_`. -/
def tryOptimization (solve : Solver) (s : TagGraph) : TagGraph :=
  let r := solve s.graph s.values
  let ni : ℚ := if numProjectionFactors s > 0 then 1 / (numProjectionFactors s : ℚ) else 1
  { s with optimizedValues := r.1, optimizerError := r.2.1 * ni, optimizerIterations := r.2.2 }

/-- `TagGraph::optimize()`: run `tryOptimization` over the current graph
and values, then replace the working values with the optimized ones. -/
def optimize (solve : Solver) (s : TagGraph) : TagGraph :=
  let s2 := tryOptimization solve s
  { s2 with values := s2.optimizedValues }

/-- Claim C6: after `optimize` the working value assignment equals the
solver's result, the factor collection is exactly what it was before the
call, the recorded error is the solver's error divided by the number of
reprojection factors when at least one exists (the raw solver error
otherwise), and the iteration count is the solver's. -/
theorem optimize_spec (solve : Solver) (s : TagGraph) :
    (optimize solve s).values = (solve s.graph s.values).1 ∧
    (optimize solve s).graph = s.graph ∧
    (optimize solve s).optimizerError =
      (if 0 < numProjectionFactors s then
        (solve s.graph s.values).2.1 / (numProjectionFactors s : ℚ)
      else (solve s.graph s.values).2.1) ∧
    (optimize solve s).optimizerIterations = (solve s.graph s.values).2.2 := by
  refine ⟨rfl, rfl, ?_, rfl⟩
  show (solve s.graph s.values).2.1 *
      (if numProjectionFactors s > 0 then 1 / (numProjectionFactors s : ℚ) else 1) = _
  by_cases hn : numProjectionFactors s > 0
  · rw [if_pos hn, if_pos hn, mul_one_div]
  · rw [if_neg hn, if_neg hn, mul_one]

/-- `gtsam::Point3` as used by the custom measurement function
`distance`, which computes a real square root: coordinates in `ℝ`. -/
@[ext]
structure Point3 where
  x : ℝ
  y : ℝ
  z : ℝ

/-- The measurement function `distance(p1, p2, H1, H2)`: the returned
scalar `r = sqrt(d.x² + d.y² + d.z²)` for `d = p1 - p2`, together with
the two optional Jacobians the function writes, `H1 = (d.x/r, d.y/r,
d.z/r)` and `H2 = (-d.x/r, -d.y/r, -d.z/r)`. -/
noncomputable def distanceWithJacobians (p1 p2 : Point3) : ℝ × Point3 × Point3 :=
  let d : Point3 := { x := p1.x - p2.x, y := p1.y - p2.y, z := p1.z - p2.z }
  let r : ℝ := Real.sqrt (d.x * d.x + d.y * d.y + d.z * d.z)
  (r,
   { x := d.x / r, y := d.y / r, z := d.z / r },
   { x := -d.x / r, y := -d.y / r, z := -d.z / r })

/-- What claim C7 asserts of `distance` away from `p1 = p2`: the scalar
is the (nonnegative, nonzero) Euclidean norm of `p1 - p2`, characterized
by its square; the requested derivative with respect to `p1` is the unit
vector `(p1 - p2)/r` (its squared norm is 1), and the derivative with
respect to `p2` is its negation. -/
def DistanceSpec (p1 p2 : Point3) : Prop :=
  let r := (distanceWithJacobians p1 p2).1
  let H1 := (distanceWithJacobians p1 p2).2.1
  let H2 := (distanceWithJacobians p1 p2).2.2
  0 ≤ r ∧ r ≠ 0 ∧
  r * r = (p1.x - p2.x) * (p1.x - p2.x) + (p1.y - p2.y) * (p1.y - p2.y) +
    (p1.z - p2.z) * (p1.z - p2.z) ∧
  H1 = { x := (p1.x - p2.x) / r, y := (p1.y - p2.y) / r, z := (p1.z - p2.z) / r } ∧
  H2 = { x := -H1.x, y := -H1.y, z := -H1.z } ∧
  H1.x * H1.x + H1.y * H1.y + H1.z * H1.z = 1

/-- Claim C7: for `p1 ≠ p2`, `distance` returns the Euclidean norm of
`p1 - p2` and writes the unit vector `(p1-p2)/r` and its negation as the
two requested derivatives (at `p1 = p2` the divisor `r` is zero and the
computation is undefined). -/
theorem distance_spec (p1 p2 : Point3) (h : p1 ≠ p2) : DistanceSpec p1 p2 := by
  have hd : p1.x - p2.x ≠ 0 ∨ p1.y - p2.y ≠ 0 ∨ p1.z - p2.z ≠ 0 := by
    by_contra hc
    push_neg at hc
    obtain ⟨e1, e2, e3⟩ := hc
    exact h (Point3.ext (sub_eq_zero.mp e1) (sub_eq_zero.mp e2) (sub_eq_zero.mp e3))
  have hpos : 0 < (p1.x - p2.x) * (p1.x - p2.x) + (p1.y - p2.y) * (p1.y - p2.y) +
      (p1.z - p2.z) * (p1.z - p2.z) := by
    rcases hd with h1 | h2 | h3
    · nlinarith [mul_self_pos.mpr h1, mul_self_nonneg (p1.y - p2.y), mul_self_nonneg (p1.z - p2.z)]
    · nlinarith [mul_self_pos.mpr h2, mul_self_nonneg (p1.x - p2.x), mul_self_nonneg (p1.z - p2.z)]
    · nlinarith [mul_self_pos.mpr h3, mul_self_nonneg (p1.x - p2.x), mul_self_nonneg (p1.y - p2.y)]
  have hr : (distanceWithJacobians p1 p2).1 =
      Real.sqrt ((p1.x - p2.x) * (p1.x - p2.x) + (p1.y - p2.y) * (p1.y - p2.y) +
        (p1.z - p2.z) * (p1.z - p2.z)) := rfl
  have hrpos : 0 < (distanceWithJacobians p1 p2).1 := by
    rw [hr]; exact Real.sqrt_pos.mpr hpos
  have hrr : (distanceWithJacobians p1 p2).1 * (distanceWithJacobians p1 p2).1 =
      (p1.x - p2.x) * (p1.x - p2.x) + (p1.y - p2.y) * (p1.y - p2.y) +
        (p1.z - p2.z) * (p1.z - p2.z) := by
    rw [hr]; exact Real.mul_self_sqrt hpos.le
  refine ⟨hrpos.le, hrpos.ne', hrr, rfl, ?_, ?_⟩
  · ext
    · exact neg_div _ _
    · exact neg_div _ _
    · exact neg_div _ _
  · show (p1.x - p2.x) / (distanceWithJacobians p1 p2).1 *
        ((p1.x - p2.x) / (distanceWithJacobians p1 p2).1) +
      (p1.y - p2.y) / (distanceWithJacobians p1 p2).1 *
        ((p1.y - p2.y) / (distanceWithJacobians p1 p2).1) +
      (p1.z - p2.z) / (distanceWithJacobians p1 p2).1 *
        ((p1.z - p2.z) / (distanceWithJacobians p1 p2).1) = 1
    rw [div_mul_div_comm, div_mul_div_comm, div_mul_div_comm,
      div_add_div_same, div_add_div_same, hrr]
    exact div_self hpos.ne'

/-- Claim C7 (witness): `distance_spec` at the distinct points
`(1, 0, 0)` and the origin. -/
theorem distance_spec_witness :
    DistanceSpec { x := 1, y := 0, z := 0 } { x := 0, y := 0, z := 0 } :=
  distance_spec { x := 1, y := 0, z := 0 } { x := 0, y := 0, z := 0 }
    (fun hEq => one_ne_zero (congrArg Point3.x hEq))

end tagslam
